import Mathlib

/-!
Verification development for the rust-sgp4 crate (src/lib.rs).

The crate embeds the element-conversion part of the SGP4 orbit propagation
theory. The single source file defines the physical constants, the function
`propagate`, and a test module. Every f64 computation of the source is
embedded here as exact real arithmetic: `powf` becomes `Real.rpow`, `powi`
becomes the natural-number power, `cos` becomes `Real.cos` and `sqrt`
becomes `Real.sqrt`. Each local binding of `propagate` (lines 70 to 171 of
src/lib.rs) is embedded as a top-level function of the element set, keeping
the source name, so that theorems can speak about the intermediate
quantities; `propagate` itself computes the final bound quantity and then
returns the dummy literal value exactly as the source does.
-/

namespace SGP4

/-- Modelled from the spec: the element-set type produced by the TLE parsing
collaborator (module `tle`, whose file is not part of the packaged source).
The spec lists the fields mean motion, eccentricity, inclination, RAAN,
argument of perigee, mean anomaly, drag term and epoch; `propagate` reads
only `mean_motion`, `i` and `e`. -/
structure TLE where
  mean_motion : ℝ
  i : ℝ
  e : ℝ
  raan : ℝ
  arg_perigee : ℝ
  mean_anomaly : ℝ
  bstar : ℝ
  epoch : ℝ

/-- The inertial coordinate value returned by `propagate`. The source
constructs it with exactly the three components X, Y, Z (src/lib.rs lines
176 to 180), so the type has exactly those fields. -/
structure TEME where
  X : ℝ
  Y : ℝ
  Z : ℝ

/-- Orbital constant for Earth, src/lib.rs line 46. -/
noncomputable def ke : ℝ := 7.43669161e-2

/-- Harmonic gravity constant for the SGP4 model, src/lib.rs line 49. -/
noncomputable def k2 : ℝ := 5.413080e-4

/-- Radius of the Earth in Earth radii, src/lib.rs line 52. -/
noncomputable def RE : ℝ := 1.0

/-- Kilometers per Earth radius, src/lib.rs line 55. -/
noncomputable def XKMPER : ℝ := 6378.135

/-- The tabulated geometric parameter, src/lib.rs line 58. -/
noncomputable def S : ℝ := 1.01222928

/-- The drag-scaling constant, src/lib.rs line 61. -/
noncomputable def qs4 : ℝ := 1.88027916e-9

/-- Local `cos_i0` of `propagate`, src/lib.rs line 75. -/
noncomputable def cos_i0 (tle : TLE) : ℝ := Real.cos tle.i

/-- Local `cos2_i0` of `propagate`, src/lib.rs line 76. -/
noncomputable def cos2_i0 (tle : TLE) : ℝ := cos_i0 tle * cos_i0 tle

/-- Local `e02` of `propagate`, src/lib.rs line 77. -/
noncomputable def e02 (tle : TLE) : ℝ := tle.e * tle.e

/-- Local `a1` of `propagate`, src/lib.rs line 90. -/
noncomputable def a1 (tle : TLE) : ℝ := (ke / tle.mean_motion) ^ ((2 : ℝ) / 3)

/-- Local `d1` of `propagate`, src/lib.rs line 95. -/
noncomputable def d1 (tle : TLE) : ℝ :=
  (3 * k2 * (3 * cos2_i0 tle - 1)) / (2 * a1 tle * a1 tle * (1 - e02 tle) ^ ((3 : ℝ) / 2))

/-- Local `a0` of `propagate`, src/lib.rs line 100. -/
noncomputable def a0 (tle : TLE) : ℝ :=
  a1 tle * (1 - (d1 tle / 3) - (d1 tle * d1 tle) - (134 * d1 tle * d1 tle * d1 tle / 81))

/-- Local `d0` of `propagate`, src/lib.rs line 105. -/
noncomputable def d0 (tle : TLE) : ℝ :=
  (3 * k2 * (3 * cos2_i0 tle - 1)) / (2 * a0 tle * a0 tle * (1 - e02 tle) ^ ((3 : ℝ) / 2))

/-- Local `n0_dp` of `propagate`, src/lib.rs line 110. -/
noncomputable def n0_dp (tle : TLE) : ℝ := tle.mean_motion / (1 + d0 tle)

/-- Local `ao_dp` of `propagate`, src/lib.rs line 115. -/
noncomputable def ao_dp (tle : TLE) : ℝ := a0 tle / (1 - d0 tle)

/-- Local `perigee` of `propagate`, src/lib.rs line 124. -/
noncomputable def perigee (tle : TLE) : ℝ := (ao_dp tle * (1 - tle.e) - RE) * XKMPER

/-- Local `apogee` of `propagate`, src/lib.rs line 127. -/
noncomputable def apogee (tle : TLE) : ℝ := (ao_dp tle * (1 + tle.e) - RE) * XKMPER

/-- Local `s` of `propagate`, src/lib.rs lines 135 to 146: the source tests
`perigee < 156.0` first and only in its else-branch tests `perigee < 98.0`. -/
noncomputable def s (tle : TLE) : ℝ :=
  if perigee tle < 156 then ao_dp tle * (1 - tle.e) - S + RE
  else if perigee tle < 98 then (20 / XKMPER) + RE
  else S

/-- Local `O` of `propagate`, src/lib.rs line 149. -/
noncomputable def O (tle : TLE) : ℝ := cos_i0 tle

/-- Local `O2` of `propagate`, src/lib.rs line 150. -/
noncomputable def O2 (tle : TLE) : ℝ := O tle * O tle

/-- Local `xi` of `propagate`, src/lib.rs line 155. -/
noncomputable def xi (tle : TLE) : ℝ := 1 / (ao_dp tle - s tle)

/-- Local `xi4` of `propagate`, src/lib.rs line 156. -/
noncomputable def xi4 (tle : TLE) : ℝ := xi tle ^ (4 : ℕ)

/-- Local `B` of `propagate`, src/lib.rs line 160. -/
noncomputable def B (tle : TLE) : ℝ := Real.sqrt (1 - e02 tle)

/-- Local `n` of `propagate` (the geometric eccentricity factor eta),
src/lib.rs line 163. -/
noncomputable def n (tle : TLE) : ℝ := ao_dp tle * tle.e * xi tle

/-- Local `n2` of `propagate`, src/lib.rs line 164. -/
noncomputable def n2 (tle : TLE) : ℝ := n tle ^ (2 : ℕ)

/-- Local `n3` of `propagate`, src/lib.rs line 165. -/
noncomputable def n3 (tle : TLE) : ℝ := n tle ^ (3 : ℕ)

/-- Local `n4` of `propagate`, src/lib.rs line 166. -/
noncomputable def n4 (tle : TLE) : ℝ := n tle ^ (4 : ℕ)

/-- Local `C2` of `propagate`, src/lib.rs line 171. -/
noncomputable def C2 (tle : TLE) : ℝ :=
  qs4 * xi4 tle * n0_dp tle * (1 - n2 tle) ^ ((-7 : ℝ) / 2) *
    (ao_dp tle * (1 + (1.5 * n2 tle) + (4 * tle.e * n tle) + (tle.e * n3 tle)) +
      1.5 * (k2 * xi tle) / (1 - n2 tle) * (-0.5 + (1.5 * O2 tle)) *
        (8 + (24 * n2 tle) + (3 * n4 tle)))

/-- The public operation, src/lib.rs lines 67 to 181: the source computes the
section 1 to 3 quantities embedded above, culminating in the coefficient `C2`,
and then discards them all and returns the dummy literal value
`TEME \x7b X: 0.0, Y: 0.0, Z: 0.0 \x7d`; the `time` argument is never read. -/
noncomputable def propagate (tle : TLE) (time : ℝ) : TEME :=
  let _C2 := C2 tle
  ⟨0, 0, 0⟩

/-- Element set with mean motion equal to `ke`, zero inclination and zero
eccentricity: its computed perigee is about 6.91 km, which is below 98 km. -/
noncomputable def tleLow : TLE := ⟨ke, 0, 0, 0, 0, 0, 0, 0⟩

/-- Element set with mean motion equal to `ke`, zero inclination and
eccentricity field holding -7/25: the source never validates the field, and
the computed eta value is about 25.47, far beyond the singularity bound. -/
noncomputable def tleEta : TLE := ⟨ke, 0, -(7 / 25), 0, 0, 0, 0, 0⟩

/-- Degenerate element set whose eccentricity field holds exactly 1, so that
1 - e0 * e0 = 0. -/
noncomputable def tleDeg : TLE := ⟨ke, 0, 1, 0, 0, 0, 0, 0⟩

/-- Modelled from the spec: the reference element set of the published
SPACETRACK REPORT NO. 3 test satellite, with the rev/day mean motion and the
degree-valued angles converted to rad/min and radians as the spec prescribes
for the TLE parsing collaborator (module `tle`, not part of the packaged
source). -/
noncomputable def reportTLE : TLE :=
  ⟨16.05824518 * (2 * Real.pi) / 1440, 72.8435 * Real.pi / 180, 0.0086731,
   115.9689 * Real.pi / 180, 52.6988 * Real.pi / 180, 110.5714 * Real.pi / 180,
   0.66816e-4, 80275.98708465⟩

lemma tleLow_a1 : a1 tleLow = 1 := by
  rw [a1, show tleLow.mean_motion = ke from rfl,
    div_self (by norm_num [ke] : ke ≠ 0), Real.one_rpow]

lemma tleLow_base : (1 : ℝ) - e02 tleLow = 1 := by norm_num [e02, tleLow]

lemma tleLow_cos : cos2_i0 tleLow = 1 := by
  norm_num [cos2_i0, cos_i0, tleLow, Real.cos_zero]

lemma tleLow_perigee : perigee tleLow < 98 := by
  simp only [perigee, ao_dp, d0, a0, d1]
  rw [tleLow_a1, tleLow_base, Real.one_rpow, tleLow_cos,
    show tleLow.e = (0 : ℝ) from rfl]
  norm_num [k2, RE, XKMPER]

lemma tleLow_s : s tleLow = ao_dp tleLow * (1 - tleLow.e) - S + RE := by
  simp only [s]
  rw [if_pos (lt_trans tleLow_perigee (by norm_num : (98 : ℝ) < 156))]

lemma tleEta_a1 : a1 tleEta = 1 := by
  rw [a1, show tleEta.mean_motion = ke from rfl,
    div_self (by norm_num [ke] : ke ≠ 0), Real.one_rpow]

lemma tleEta_base : (1 : ℝ) - e02 tleEta = 576 / 625 := by norm_num [e02, tleEta]

lemma tleEta_cos : cos2_i0 tleEta = 1 := by
  norm_num [cos2_i0, cos_i0, tleEta, Real.cos_zero]

lemma rpow_576_625 : ((576 : ℝ) / 625) ^ ((3 : ℝ) / 2) = 13824 / 15625 := by
  have h1 : ((576 : ℝ) / 625) = ((24 : ℝ) / 25) ^ (2 : ℕ) := by norm_num
  have h2 : ((2 : ℕ) : ℝ) * ((3 : ℝ) / 2) = ((3 : ℕ) : ℝ) := by norm_num
  rw [h1, ← Real.rpow_natCast ((24 : ℝ) / 25) 2,
    ← Real.rpow_mul (by norm_num : (0 : ℝ) ≤ 24 / 25), h2, Real.rpow_natCast]
  norm_num

lemma tleEta_perigee : (156 : ℝ) ≤ perigee tleEta := by
  simp only [perigee, ao_dp, d0, a0, d1]
  rw [tleEta_a1, tleEta_base, rpow_576_625, tleEta_cos,
    show tleEta.e = -((7 : ℝ) / 25) from rfl]
  norm_num [k2, RE, XKMPER]

lemma tleEta_s : s tleEta = S := by
  have h1 : ¬ perigee tleEta < 156 := not_lt.mpr (le_trans (by norm_num) tleEta_perigee)
  have h2 : ¬ perigee tleEta < 98 := not_lt.mpr (le_trans (by norm_num) tleEta_perigee)
  simp only [s]
  rw [if_neg h1, if_neg h2]

/-- C1: counter-evaluation of the s selection at an element set whose computed
perigee is about 6.91 km, hence below 98 km: because the source tests
`perigee < 156.0` first, the set receives s = ao_dp (1 - e0) - S + RE (about
0.9889 Earth radii) and not the fixed floor value 20/XKMPER + RE (about
1.0031 Earth radii) that the claim and the published algorithm require; the
`perigee < 98.0` branch of the source is unreachable. -/
theorem C1_dead_low_perigee_branch :
    perigee tleLow < 98 ∧
    s tleLow = ao_dp tleLow * (1 - tleLow.e) - S + RE ∧
    s tleLow < 20 / XKMPER + RE := by
  refine ⟨tleLow_perigee, tleLow_s, ?_⟩
  rw [tleLow_s]
  simp only [ao_dp, d0, a0, d1]
  rw [tleLow_a1, tleLow_base, Real.one_rpow, tleLow_cos,
    show tleLow.e = (0 : ℝ) from rfl]
  norm_num [k2, RE, XKMPER, S]

/-- C5: counter-evaluation at an element set whose geometric eccentricity
factor eta = ao_dp e0 xi is about 25.47, so its absolute value is at least 1:
the code performs no such check, cannot fail (its return type is a bare TEME,
not a Result), and returns the all-zero value; in f64 the discarded
coefficient C2 would contain (1 - eta^2)^(-7/2) of a negative base, a NaN. -/
theorem C5_no_eta_guard :
    1 ≤ |n tleEta| ∧ propagate tleEta 0 = ⟨0, 0, 0⟩ := by
  refine ⟨?_, rfl⟩
  have h : (1 : ℝ) ≤ n tleEta := by
    simp only [n, xi]
    rw [tleEta_s]
    simp only [ao_dp, d0, a0, d1]
    rw [tleEta_a1, tleEta_base, rpow_576_625, tleEta_cos,
      show tleEta.e = -((7 : ℝ) / 25) from rfl]
    norm_num [k2, S]
  exact le_trans h (le_abs_self _)

/-- C2: for every input element set the element conversion computes
a1 = (ke/n0)^(2/3), then d1 = (3/2) k2 (3 cos^2 i0 - 1) / (a1^2 (1-e0^2)^(3/2)),
then a0 = a1 (1 - d1/3 - d1^2 - (134/81) d1^3), recomputes d0 by the same
formula with a0 in place of a1, and yields n0_dp = n0/(1+d0) and
ao_dp = a0/(1-d0). -/
theorem C2_element_conversion (tle : TLE) :
    a1 tle = (ke / tle.mean_motion) ^ ((2 : ℝ) / 3) ∧
    d1 tle = (3 / 2) * k2 * (3 * Real.cos tle.i ^ 2 - 1) /
      (a1 tle ^ 2 * (1 - tle.e ^ 2) ^ ((3 : ℝ) / 2)) ∧
    a0 tle = a1 tle * (1 - d1 tle / 3 - d1 tle ^ 2 - (134 / 81) * d1 tle ^ 3) ∧
    d0 tle = (3 / 2) * k2 * (3 * Real.cos tle.i ^ 2 - 1) /
      (a0 tle ^ 2 * (1 - tle.e ^ 2) ^ ((3 : ℝ) / 2)) ∧
    n0_dp tle = tle.mean_motion / (1 + d0 tle) ∧
    ao_dp tle = a0 tle / (1 - d0 tle) := by
  have hb : (1 : ℝ) - e02 tle = 1 - tle.e ^ 2 := by rw [e02]; ring
  refine ⟨rfl, ?_, ?_, ?_, rfl, rfl⟩
  · rw [d1, cos2_i0, cos_i0, hb]; ring
  · rw [a0]; ring
  · rw [d0, cos2_i0, cos_i0, hb]; ring

/-- C7: for every input element set the perigee altitude is
(ao_dp (1 - e0) - RE) * XKMPER kilometers and the apogee altitude is
(ao_dp (1 + e0) - RE) * XKMPER kilometers. -/
theorem C7_perigee_apogee (tle : TLE) :
    perigee tle = (ao_dp tle * (1 - tle.e) - RE) * XKMPER ∧
    apogee tle = (ao_dp tle * (1 + tle.e) - RE) * XKMPER :=
  ⟨rfl, rfl⟩

/-- C8: propagate is deterministic; two calls with identical element-set and
time arguments return identical outputs. The embedding is a pure function of
its two arguments, mirroring the source function, which reads no global
mutable state and uses only deterministic f64 operations. -/
theorem C8_deterministic (e1 e2 : TLE) (t1 t2 : ℝ) (he : e1 = e2) (ht : t1 = t2) :
    propagate e1 t1 = propagate e2 t2 := by rw [he, ht]

theorem C8_deterministic_witness : propagate tleLow 0 = propagate tleLow 0 :=
  C8_deterministic tleLow tleLow 0 0 rfl rfl

/-- C9: for every element set with inclination 0, and for every element set
with eccentricity 0, each component that propagate produces equals the real
number 0. The source returns the literal constants 0.0 (src/lib.rs lines 176
to 180) independently of every intermediate computation, so no NaN and no
Infinity can reach the output; the code emits no velocity components at all. -/
theorem C9_singularity_guard (tle : TLE) (t : ℝ) (_h : tle.i = 0 ∨ tle.e = 0) :
    (propagate tle t).X = 0 ∧ (propagate tle t).Y = 0 ∧ (propagate tle t).Z = 0 :=
  ⟨rfl, rfl, rfl⟩

theorem C9_singularity_guard_witness :
    (propagate tleLow 0).X = 0 ∧ (propagate tleLow 0).Y = 0 ∧ (propagate tleLow 0).Z = 0 :=
  C9_singularity_guard tleLow 0 (Or.inl rfl)

/-- C10: the output of propagate is independent of both arguments; every call
returns the all-zero TEME value, and every intermediate quantity computed from
the elements, the drag coefficient C2 included, is discarded. -/
theorem C10_constant_output (e1 e2 : TLE) (t1 t2 : ℝ) :
    propagate e1 t1 = propagate e2 t2 ∧ propagate e1 t1 = ⟨0, 0, 0⟩ :=
  ⟨rfl, rfl⟩

/-- C3: evaluating the code at the published SPACETRACK REPORT NO. 3 test
satellite at t = 0 minutes: the code returns the all-zero TEME value, whose X
component is more than 2000 km away from the published reference value
2328.97 km (and the returned type carries no velocity at all), so the stub
does not reproduce the published state. -/
theorem C3_reference_case_stub :
    propagate reportTLE 0 = ⟨0, 0, 0⟩ ∧
    2000 < |(propagate reportTLE 0).X - 2328.97| := by
  refine ⟨rfl, ?_⟩
  have h : (propagate reportTLE 0).X = 0 := rfl
  rw [h, zero_sub, abs_neg, abs_of_nonneg (by norm_num)]
  norm_num

/-- C4: evaluating the code at a degenerate element set whose eccentricity
field holds 1 (so 1 - e0 * e0 = 0): propagate performs no validation, cannot
fail (its return type is a bare TEME, not a Result), and returns the numeric
all-zero value. -/
theorem C4_no_validation :
    1 - tleDeg.e * tleDeg.e ≤ 0 ∧ propagate tleDeg 0 = ⟨0, 0, 0⟩ := by
  constructor
  · rw [show tleDeg.e = (1 : ℝ) from rfl]; norm_num
  · rfl

/-- C6: evaluating the code at the reference element set with a negative
elapsed time: the call is accepted and returns the bare three-component TEME
value; there is no Result wrapper, no typed error and no velocity triple in
the output type. -/
theorem C6_signature_stub : propagate reportTLE (-10) = ⟨0, 0, 0⟩ := rfl

end SGP4
